import Mathlib

/-!
Shallow embedding of the FastAPI backend in `src/main.py`: the `/test`
database-probe endpoint (`test_database`) and the `/api/chat` relay endpoint
(`chat_with_claude`), together with the pydantic-declared validation of the
request body (`ChatMessage`, `ChatRequest`).

Python-specific behaviours are made explicit:
  * `os.getenv` returns `Option String` (`none` = unset);
  * Python truthiness of a possibly-absent string (`if not api_key`,
    `if system_override`) is `pyTruthy`;
  * exceptions of external collaborators (dynamic import, the database handle,
    the Anthropic client) are modelled as explicit outcome values
    (`DbProbe`, `sdkError`, `ApiOutcome`) supplied as parameters;
  * the external API is an oracle `ApiCall → ApiOutcome`; the relay returns the
    list of calls it actually issued, so "no external call is attempted" is
    expressible.
-/

/-- Python truthiness of an optional string: `None` and `""` are falsy. -/
def pyTruthy : Option String → Bool
  | none => false
  | some s => s != ""

/-! ## Database probe (`GET /test`, src/main.py lines 28-70) -/

/-- Model of the optional `database.db` handle: an optional `name` attribute
(absent when the hasattr check fails) and a `list_collection_names()`
operation that either returns the names or raises with a message. -/
structure DbHandle where
  name : Option String
  list_collection_names : Except String (List String)

/-- Outcome of `from database import db`: `ImportError`, any other exception
during import, or success with an optional handle (`db` may be `None`). -/
inductive DbProbe
  | importError
  | importRaises (e : String)
  | imported (db : Option DbHandle)

/-- The two environment variables the probe checks. -/
structure TestEnv where
  DATABASE_URL : Option String
  DATABASE_NAME : Option String
deriving DecidableEq

/-- The response dictionary built by `test_database`. `database_url` and
`database_name` start as `None`, hence `Option String`. -/
structure DiagnosticReport where
  backend : String
  database : String
  database_url : Option String
  database_name : Option String
  connection_status : String
  collections : List String
deriving DecidableEq

/-- `test_database` (src/main.py lines 28-70): builds the default report, runs
the probe with every exception absorbed into a status string, then
unconditionally overwrites `database_url` / `database_name` from the
environment-variable checks of lines 67-68. -/
def test_database (probe : DbProbe) (env : TestEnv) : DiagnosticReport :=
  let r0 : DiagnosticReport :=
    { backend := "✅ Running"
      database := "❌ Not Available"
      database_url := none
      database_name := none
      connection_status := "Not Connected"
      collections := [] }
  let r1 :=
    match probe with
    | .importError =>
        { r0 with database := "❌ Database module not found (run enable-database first)" }
    | .importRaises e =>
        { r0 with database := "❌ Error: " ++ e.take 50 }
    | .imported none =>
        { r0 with database := "⚠️  Available but not initialized" }
    | .imported (some db) =>
        let r :=
          { r0 with
            database := "✅ Available"
            database_url := some "✅ Configured"
            database_name := some (db.name.getD "✅ Connected")
            connection_status := "Connected" }
        match db.list_collection_names with
        | .ok collections =>
            { r with collections := collections.take 10
                     database := "✅ Connected & Working" }
        | .error e =>
            { r with database := "⚠️  Connected but Error: " ++ e.take 50 }
  { r1 with
    database_url := some (if pyTruthy env.DATABASE_URL then "✅ Set" else "❌ Not Set")
    database_name := some (if pyTruthy env.DATABASE_NAME then "✅ Set" else "❌ Not Set") }

/-- The `/test` route: the handler returns normally for every probe outcome, so
the framework replies with HTTP status 200 and the report as the body. -/
def test_route (probe : DbProbe) (env : TestEnv) : Nat × DiagnosticReport :=
  (200, test_database probe env)

/-! ## Chat data model (src/main.py lines 74-84) -/

/-- `Literal["user", "assistant", "system"]`. -/
inductive Role
  | user
  | assistant
  | system
deriving DecidableEq

/-- The string value a `Role` stands for. -/
def roleString : Role → String
  | .user => "user"
  | .assistant => "assistant"
  | .system => "system"

/-- `ChatMessage` (validated form). -/
structure ChatMessage where
  role : Role
  content : String
deriving DecidableEq

/-- `ChatRequest` with the declared defaults. -/
structure ChatRequest where
  messages : List ChatMessage := []
  max_tokens : Int := 512
  temperature : Float := 0.7

/-- `ChatResponse`. -/
structure ChatResponse where
  reply : String
deriving DecidableEq

/-- `AURA_SYSTEM_PROMPT` (src/main.py lines 86-94). -/
def AURA_SYSTEM_PROMPT : String :=
  "You are AURA, an empathetic and emotionally intelligent mental health support chatbot.\n"
  ++ "- Empathy first.\n"
  ++ "- Safety and sensitivity: if user mentions self-harm or crisis, encourage immediate help (988 in U.S.) with warm concern.\n"
  ++ "- No diagnosis or medication advice.\n"
  ++ "- Offer brief, evidence-based coping tools (breathing, grounding, CBT reframing, journaling, mindfulness).\n"
  ++ "- Warm, calm, non-judgmental tone.\n"
  ++ "- Mirror user\x27s tone while guiding toward safety and constructive coping."

/-! ## Request-body validation (pydantic semantics of the declarations) -/

/-- State of one field of the inbound JSON body: absent, present but not of the
declared type, or present with a value of the declared type. -/
inductive RawField (α : Type)
  | missing
  | invalid
  | val (a : α)
deriving DecidableEq

/-- A raw inbound message: `role` is an arbitrary string before validation. -/
structure RawChatMessage where
  role : String
  content : String
deriving DecidableEq

/-- The raw inbound `POST /api/chat` body. -/
structure RawChatRequest where
  messages : RawField (List RawChatMessage)
  max_tokens : RawField Int
  temperature : RawField Float

/-- Validation of `Literal["user", "assistant", "system"]`. -/
def parseRole (s : String) : Option Role :=
  if s = "user" then some .user
  else if s = "assistant" then some .assistant
  else if s = "system" then some .system
  else none

/-- Validation of one `ChatMessage`. -/
def validateMessage (m : RawChatMessage) : Option ChatMessage :=
  (parseRole m.role).map (fun r => { role := r, content := m.content })

/-- Validation of the message list, element by element in order. -/
def validateMessages : List RawChatMessage → Option (List ChatMessage)
  | [] => some []
  | m :: rest =>
    match validateMessage m, validateMessages rest with
    | some cm, some cms => some (cm :: cms)
    | _, _ => none

/-- Validation of the whole body against the `ChatRequest` declaration:
`messages` defaults to `[]` (`Field(default_factory=list)`), `max_tokens` to
`512`, `temperature` to `0.7`; a field of the wrong type rejects the body. -/
def validateChatRequest (r : RawChatRequest) : Option ChatRequest := do
  let msgs ← match r.messages with
    | .missing => some []
    | .invalid => none
    | .val l => validateMessages l
  let mt ← match r.max_tokens with
    | .missing => some 512
    | .invalid => none
    | .val n => some n
  let t ← match r.temperature with
    | .missing => some (0.7 : Float)
    | .invalid => none
    | .val x => some x
  some { messages := msgs, max_tokens := mt, temperature := t }

/-! ## Chat relay (`POST /api/chat`, src/main.py lines 97-135) -/

/-- A conversational turn as sent downstream: `{"role": ..., "content": ...}`. -/
structure Turn where
  role : String
  content : String
deriving DecidableEq

/-- A content block of the external API result: `type` is
`getattr(block, "type", None)`; `text` its text payload. -/
structure ContentBlock where
  type : Option String
  text : String
deriving DecidableEq

/-- Outcome of `client.messages.create(...)`: a result with content blocks, or
an exception carrying `str(e)`. -/
inductive ApiOutcome
  | success (content : List ContentBlock)
  | failure (e : String)

/-- The arguments of the single external API invocation. -/
structure ApiCall where
  model : String
  max_tokens : Int
  temperature : Float
  system : String
  messages : List Turn

/-- Result of the `/api/chat` route: 200 with a `ChatResponse`, an
`HTTPException` raised by the handler, or the framework-level 422 rejection of
a malformed body. -/
inductive RelayOutcome
  | ok (resp : ChatResponse)
  | httpError (status : Nat) (detail : String)
  | validationError
deriving DecidableEq

/-- HTTP status of a `RelayOutcome`. -/
def statusOf : RelayOutcome → Nat
  | .ok _ => 200
  | .httpError s _ => s
  | .validationError => 422

/-- Detail string of a `RelayOutcome` (empty for a 200 reply). -/
def detailOf : RelayOutcome → String
  | .ok _ => ""
  | .httpError _ d => d
  | .validationError => ""

/-- One iteration of the partition loop (src/main.py lines 113-117): a
`system` message folds into `system_override` through Python truthiness
(`(system_override + "\n" + m.content) if system_override else m.content`);
any other message is appended to `user_assistant_messages`. -/
def relayStep (acc : List Turn × Option String) (m : ChatMessage) :
    List Turn × Option String :=
  if m.role = .system then
    (acc.1, some (if pyTruthy acc.2 then acc.2.getD "" ++ "\n" ++ m.content else m.content))
  else
    (acc.1 ++ [{ role := roleString m.role, content := m.content }], acc.2)

/-- The whole partition loop, starting from `[]` and `None`. -/
def relayPartition (msgs : List ChatMessage) : List Turn × Option String :=
  msgs.foldl relayStep ([], none)

/-- src/main.py line 119:
`system_text = f"{AURA_SYSTEM_PROMPT}\n\n{system_override}" if system_override else AURA_SYSTEM_PROMPT`. -/
def composeSystemText (system_override : Option String) : String :=
  if pyTruthy system_override then
    AURA_SYSTEM_PROMPT ++ "\n\n" ++ system_override.getD ""
  else AURA_SYSTEM_PROMPT

/-- The arguments passed to `client.messages.create` (lines 122-128); an empty
turn list is replaced by the synthetic `{"role": "user", "content": "Hello"}`
(`user_assistant_messages or [...]`). -/
def relayCall (payload : ChatRequest) : ApiCall :=
  let p := relayPartition payload.messages
  { model := "claude-3-5-sonnet-latest"
    max_tokens := payload.max_tokens
    temperature := payload.temperature
    system := composeSystemText p.2
    messages := if p.1.isEmpty then [{ role := "user", content := "Hello" }] else p.1 }

/-- src/main.py line 130: join the text of the blocks whose `type` is `"text"`. -/
def joinTextBlocks (content : List ContentBlock) : String :=
  String.join ((content.filter (fun b => b.type == some "text")).map (fun b => b.text))

/-- The fallback reply of line 132. -/
def FALLBACK_REPLY : String := "I\x27m here with you. How can I support you right now?"

/-- `chat_with_claude` (src/main.py lines 97-135). `sdkError = some e` models
`from anthropic import Anthropic` raising `e`; `api` is the external API
oracle. The second component records the external calls actually issued. -/
def chat_with_claude (env : Option String) (sdkError : Option String)
    (api : ApiCall → ApiOutcome) (payload : ChatRequest) :
    RelayOutcome × List ApiCall :=
  if !pyTruthy env then
    (.httpError 500 "ANTHROPIC_API_KEY not set on server", [])
  else
    match sdkError with
    | some e => (.httpError 500 ("Anthropic SDK not available: " ++ e), [])
    | none =>
      let call := relayCall payload
      match api call with
      | .success content =>
        let reply_text := joinTextBlocks content
        let reply_text := if reply_text = "" then FALLBACK_REPLY else reply_text
        (.ok { reply := reply_text }, [call])
      | .failure e =>
        (.httpError 500 ("Claude API error: " ++ e.take 200), [call])

/-- The `/api/chat` route: framework validation of the body against the
`ChatRequest` declaration, then the handler. -/
def api_chat_route (raw : RawChatRequest) (env : Option String)
    (sdkError : Option String) (api : ApiCall → ApiOutcome) :
    RelayOutcome × List ApiCall :=
  match validateChatRequest raw with
  | none => (.validationError, [])
  | some payload => chat_with_claude env sdkError api payload

/-! ## Claim-side helper notions -/

/-- The contents of the `system`-role messages, in order. -/
def systemContents (msgs : List ChatMessage) : List String :=
  (msgs.filter (fun m => m.role == Role.system)).map (fun m => m.content)

/-- The turns the claims speak about: the non-`system` messages, in order, as
`{role, content}` pairs. -/
def turnsOf (msgs : List ChatMessage) : List Turn :=
  (msgs.filter (fun m => !(m.role == Role.system))).map
    (fun m => { role := roleString m.role, content := m.content })

/-- "Joined by newlines": the joining operation the claims speak of. -/
def joinNL : List String → String
  | [] => ""
  | [s] => s
  | s :: rest => s ++ "\n" ++ joinNL rest

/-- The database status string the failure policy assigns to each probe
scenario (claim-side expectation: one case per scenario the claim lists). -/
def expectedDatabase : DbProbe → String
  | .importError => "❌ Database module not found (run enable-database first)"
  | .importRaises e => "❌ Error: " ++ e.take 50
  | .imported none => "⚠️  Available but not initialized"
  | .imported (some db) =>
    match db.list_collection_names with
    | .ok _ => "✅ Connected & Working"
    | .error e => "⚠️  Connected but Error: " ++ e.take 50

/-! ## Helper lemmas -/

/-- Appending to a nonempty string stays nonempty. -/
theorem append_ne_empty (s t : String) (h : s ≠ "") : s ++ t ≠ "" := by
  intro he
  apply h
  have hd : s.data ++ t.data = [] := by
    rw [← String.data_append, he]
  exact String.ext (List.append_eq_nil.mp hd).1

/-- `joinNL` absorbs an already-joined head. -/
theorem joinNL_glue (a b : String) (l : List String) :
    joinNL ((a ++ "\n" ++ b) :: l) = a ++ "\n" ++ joinNL (b :: l) := by
  cases l with
  | nil => simp [joinNL]
  | cons c cs => simp [joinNL, String.append_assoc]

/-- `joinNL` of a list with a nonempty head is nonempty. -/
theorem joinNL_ne_empty (c : String) (l : List String) (hc : c ≠ "") :
    joinNL (c :: l) ≠ "" := by
  cases l with
  | nil => simpa [joinNL] using hc
  | cons d ds =>
    show c ++ "\n" ++ joinNL (d :: ds) ≠ ""
    exact append_ne_empty _ _ (append_ne_empty _ _ hc)

/-- The first component of the partition loop collects the non-system turns. -/
theorem relayLoop_fst (msgs : List ChatMessage) :
    ∀ ts so, (msgs.foldl relayStep (ts, so)).1 = ts ++ turnsOf msgs := by
  induction msgs with
  | nil => intro ts so; simp [turnsOf]
  | cons m rest ih =>
    intro ts so
    by_cases h : m.role = Role.system
    · simp [relayStep, h, turnsOf, ih]
    · simp [relayStep, h, turnsOf, ih]

/-- The accumulator of the partition loop, started from a truthy string, joins
all remaining system contents with newlines, empty or not: a nonempty
accumulator stays nonempty (hence truthy) under every append, so line 115
always takes the joining branch from here on. -/
theorem relayLoop_snd_some (msgs : List ChatMessage) :
    ∀ ts (s : String), s ≠ "" →
      (msgs.foldl relayStep (ts, some s)).2 = some (joinNL (s :: systemContents msgs)) := by
  induction msgs with
  | nil => intro ts s hs; simp [systemContents, joinNL]
  | cons m rest ih =>
    intro ts s hs
    by_cases hm : m.role = Role.system
    · have hps : pyTruthy (some s) = true := by simp [pyTruthy, hs]
      have hstep : relayStep (ts, some s) m = (ts, some (s ++ "\n" ++ m.content)) := by
        simp [relayStep, hm, hps]
      rw [List.foldl_cons, hstep,
        ih ts _ (append_ne_empty _ _ (append_ne_empty _ _ hs))]
      have hsc : systemContents (m :: rest) = m.content :: systemContents rest := by
        simp [systemContents, hm]
      rw [hsc, joinNL_glue]
      rfl
    · have hstep : relayStep (ts, some s) m
          = (ts ++ [{ role := roleString m.role, content := m.content }], some s) := by
        simp [relayStep, hm]
      have hsc : systemContents (m :: rest) = systemContents rest := by
        simp [systemContents, hm]
      rw [List.foldl_cons, hstep, ih _ s hs, hsc]

/-- The accumulator of the partition loop starting from `None`: absent when
there is no system content, else the newline-join of all system contents —
provided the FIRST system content is nonempty (only a leading empty content
meets a falsy accumulator at line 115 and is dropped). -/
theorem relayLoop_snd_none (msgs : List ChatMessage)
    (h : (systemContents msgs).head? ≠ some "") :
    ∀ ts, (msgs.foldl relayStep (ts, none)).2 =
      if systemContents msgs = [] then none else some (joinNL (systemContents msgs)) := by
  induction msgs with
  | nil => intro ts; simp [systemContents]
  | cons m rest ih =>
    intro ts
    by_cases hm : m.role = Role.system
    · have hsc : systemContents (m :: rest) = m.content :: systemContents rest := by
        simp [systemContents, hm]
      have hc : m.content ≠ "" := by
        intro hce
        apply h
        rw [hsc, hce]
        rfl
      have hstep : relayStep (ts, none) m = (ts, some m.content) := by
        simp [relayStep, hm, pyTruthy]
      rw [List.foldl_cons, hstep, relayLoop_snd_some rest ts m.content hc, hsc]
      simp
    · have hsc : systemContents (m :: rest) = systemContents rest := by
        simp [systemContents, hm]
      rw [hsc] at h
      have hstep : relayStep (ts, none) m
          = (ts ++ [{ role := roleString m.role, content := m.content }], none) := by
        simp [relayStep, hm]
      rw [List.foldl_cons, hstep, ih h, hsc]

/-- A message list with one unparsable role fails validation. -/
theorem validateMessages_none (l : List RawChatMessage) (m : RawChatMessage)
    (hm : m ∈ l) (h : validateMessage m = none) : validateMessages l = none := by
  induction l with
  | nil => cases hm
  | cons a rest ih =>
    rcases List.mem_cons.mp hm with h1 | h1
    · subst h1
      simp [validateMessages, h]
    · have hr := ih h1
      simp [validateMessages, hr]

/-- With a truthy key and the SDK importable, exactly one external call is
issued, namely `relayCall payload`. -/
theorem chat_calls_eq (env : Option String) (api : ApiCall → ApiOutcome)
    (p : ChatRequest) (hkey : pyTruthy env = true) :
    (chat_with_claude env none api p).2 = [relayCall p] := by
  cases hA : api (relayCall p) <;> simp [chat_with_claude, hkey, hA]

/-- Truncation bound used by the error paths: a 200-character slice has at
most 200 characters. -/
theorem take_length_le (s : String) (n : Nat) : (s.take n).length ≤ n := by
  rw [String.take_eq, String.length_mk, List.length_take]
  exact Nat.min_le_left _ _

/-! ## Claims -/

/-- C4: with the API credential unset or empty, `POST /api/chat` answers 500
with the detail `"ANTHROPIC_API_KEY not set on server"` (naming the missing
setting), and the external-call trace is empty — no call is attempted,
whatever the SDK state, the API oracle and the payload. -/
theorem missing_key_no_call (env sdkError : Option String)
    (api : ApiCall → ApiOutcome) (p : ChatRequest)
    (h : env = none ∨ env = some "") :
    chat_with_claude env sdkError api p
      = (.httpError 500 "ANTHROPIC_API_KEY not set on server", []) := by
  have hk : pyTruthy env = false := by rcases h with h | h <;> subst h <;> rfl
  simp [chat_with_claude, hk]

/-- C4 witness: concrete run with the variable unset. -/
theorem missing_key_no_call_witness :
    chat_with_claude none none (fun _ => ApiOutcome.success []) {}
      = (.httpError 500 "ANTHROPIC_API_KEY not set on server", []) :=
  missing_key_no_call none none (fun _ => ApiOutcome.success []) {} (Or.inl rfl)

/-- C2: with a valid key and the SDK importable, the reply of the relay is the
in-order concatenation of the text of the blocks whose type tag is `"text"`
(non-text blocks skipped), or the fixed fallback message when that
concatenation is empty. -/
theorem reply_joins_text_blocks (env : Option String) (p : ChatRequest)
    (content : List ContentBlock) (hkey : pyTruthy env = true) :
    (chat_with_claude env none (fun _ => .success content) p).1
      = .ok { reply := if joinTextBlocks content = "" then FALLBACK_REPLY
                       else joinTextBlocks content } := by
  simp [chat_with_claude, hkey]

/-- C2 witness: blocks `text "A"`, `image`, `text "B"` give the reply `"AB"`. -/
theorem reply_joins_text_blocks_witness :
    (chat_with_claude (some "k") none
        (fun _ => ApiOutcome.success
          [{ type := some "text", text := "A" }, { type := some "image", text := "Z" },
           { type := some "text", text := "B" }]) {}).1
      = RelayOutcome.ok { reply := "AB" } := by
  have h := reply_joins_text_blocks (some "k") {}
    [{ type := some "text", text := "A" }, { type := some "image", text := "Z" },
     { type := some "text", text := "B" }] rfl
  simpa [show joinTextBlocks
      [{ type := some "text", text := "A" }, { type := some "image", text := "Z" },
       { type := some "text", text := "B" }] = "AB" from rfl] using h

/-- C8 (amended): an upstream failure yields 500 whose detail is the fixed
prefix `"Claude API error: "` followed by the exception text truncated to at
most 200 characters; the detail itself is therefore at most 218 characters
long (not 200, as the prefix is 18 characters). -/
theorem upstream_error_truncation (env : Option String) (p : ChatRequest)
    (e : String) (hkey : pyTruthy env = true) :
    (chat_with_claude env none (fun _ => .failure e) p).1
      = .httpError 500 ("Claude API error: " ++ e.take 200)
    ∧ ("Claude API error: " ++ e.take 200).length ≤ 218 := by
  refine ⟨by simp [chat_with_claude, hkey], ?_⟩
  have h2 : (e.take 200).length ≤ 200 := take_length_le e 200
  rw [String.length_append]
  have h1 : ("Claude API error: ").length = 18 := rfl
  omega

/-- C8 witness: concrete upstream failure `"boom"`. -/
theorem upstream_error_truncation_witness :
    (chat_with_claude (some "k") none (fun _ => ApiOutcome.failure "boom") {}).1
      = RelayOutcome.httpError 500 ("Claude API error: " ++ ("boom" : String).take 200)
    ∧ ("Claude API error: " ++ ("boom" : String).take 200).length ≤ 218 :=
  upstream_error_truncation (some "k") {} "boom" rfl

set_option maxRecDepth 100000 in
/-- C8 counterexample: a 250-character upstream error message produces a
218-character detail, so the detail message is not truncated to at most 200
characters. -/
theorem upstream_error_detail_cex :
    statusOf (chat_with_claude (some "k") none
        (fun _ => ApiOutcome.failure (String.mk (List.replicate 250 'x'))) {}).1 = 500
    ∧ (detailOf (chat_with_claude (some "k") none
        (fun _ => ApiOutcome.failure (String.mk (List.replicate 250 'x'))) {}).1).length = 218
    ∧ ¬ (detailOf (chat_with_claude (some "k") none
        (fun _ => ApiOutcome.failure (String.mk (List.replicate 250 'x'))) {}).1).length ≤ 200 := by
  refine ⟨rfl, by decide, by decide⟩

/-- C5: `GET /test` returns normally on every probe outcome: status 200, and
the database field of the report carries the status string of the scenario — module
absent, import raising, handle `None`, handle obtained with enumeration
succeeding, and enumeration itself raising are all absorbed into strings. -/
theorem test_route_always_ok (probe : DbProbe) (env : TestEnv) :
    (test_route probe env).1 = 200
    ∧ (test_route probe env).2.database = expectedDatabase probe := by
  refine ⟨rfl, ?_⟩
  cases probe with
  | importError => rfl
  | importRaises e => rfl
  | imported db =>
    cases db with
    | none => rfl
    | some h =>
      cases hl : h.list_collection_names <;>
        simp [test_route, test_database, expectedDatabase, hl]

/-- C7 (amended): when a handle is obtained, `database_name` is first set from
the handle (or the `"✅ Connected"` marker), but the environment check of
lines 67-68 unconditionally overwrites it, so in the returned report
`database_name` is the Set/Not-Set marker for `DATABASE_NAME`, independent of
the name the handle exposes. -/
theorem database_name_env_overwrite (db : DbHandle) (env : TestEnv) :
    (test_route (.imported (some db)) env).2.database_name
      = some (if pyTruthy env.DATABASE_NAME then "✅ Set" else "❌ Not Set") := by
  cases hl : db.list_collection_names <;> simp [test_route, test_database, hl]

/-- C7 counterexample: a handle exposing the name `"mydb"`, probed with
`DATABASE_NAME` unset — the returned `database_name` is `"❌ Not Set"`,
neither the name of the handle nor the `"✅ Connected"` marker. -/
theorem database_name_overwrite_cex :
    (test_route (.imported (some { name := some "mydb", list_collection_names := .ok [] }))
        { DATABASE_URL := none, DATABASE_NAME := none }).2.database_name = some "❌ Not Set"
    ∧ (some "❌ Not Set" : Option String) ≠ some "mydb"
    ∧ (some "❌ Not Set" : Option String) ≠ some "✅ Connected" :=
  ⟨rfl, by decide, by decide⟩

/-- C1 (amended): with a valid key and SDK, the system text of the issued call
is exactly the persona prompt when the message list has no system-role entry;
otherwise — provided the FIRST system-role entry has nonempty content — it is
the persona prompt, a blank-line separator, and the contents of all
system-role entries joined by newlines in their original order (empty
contents in later positions are kept by the join). The proviso is necessary:
a leading empty content meets a falsy accumulator at line 115 and is dropped
(see the counterexample). -/
theorem system_text_composition (env : Option String) (api : ApiCall → ApiOutcome)
    (p : ChatRequest) (hkey : pyTruthy env = true)
    (hne : (systemContents p.messages).head? ≠ some "") :
    ∀ call ∈ (chat_with_claude env none api p).2,
      call.system =
        if systemContents p.messages = [] then AURA_SYSTEM_PROMPT
        else AURA_SYSTEM_PROMPT ++ "\n\n" ++ joinNL (systemContents p.messages) := by
  intro call hcall
  rw [chat_calls_eq env api p hkey, List.mem_singleton] at hcall
  subst hcall
  have hsys : (relayPartition p.messages).2
      = if systemContents p.messages = [] then none
        else some (joinNL (systemContents p.messages)) :=
    relayLoop_snd_none p.messages hne []
  have hshow : (relayCall p).system = composeSystemText (relayPartition p.messages).2 := rfl
  by_cases hsc : systemContents p.messages = []
  · rw [if_pos hsc]
    rw [if_pos hsc] at hsys
    rw [hshow, hsys]
    rfl
  · rw [if_neg hsc]
    rw [if_neg hsc] at hsys
    obtain ⟨c, l, hcl⟩ : ∃ c l, systemContents p.messages = c :: l := by
      cases h' : systemContents p.messages with
      | nil => exact absurd h' hsc
      | cons c l => exact ⟨c, l, rfl⟩
    have hc : c ≠ "" := by
      intro hce
      apply hne
      rw [hcl, hce]
      rfl
    have hjne : joinNL (systemContents p.messages) ≠ "" := by
      rw [hcl]; exact joinNL_ne_empty c l hc
    rw [hshow, hsys]
    simp [composeSystemText, pyTruthy, hjne]

/-- C1 witness: system contents `"A"` then `""` and a user message — the
later empty content is kept by the join, giving `"A\n"` after the
blank-line separator. -/
theorem system_text_composition_witness :
    (relayCall { messages := [{ role := Role.system, content := "A" },
                              { role := Role.system, content := "" },
                              { role := Role.user, content := "hi" }] }).system
      = AURA_SYSTEM_PROMPT ++ "\n\n" ++ "A\n" := by
  have h := system_text_composition (some "k") (fun _ => ApiOutcome.success [])
    { messages := [{ role := Role.system, content := "A" },
                   { role := Role.system, content := "" },
                   { role := Role.user, content := "hi" }] } rfl (by decide)
  have hm := h (relayCall { messages := [{ role := Role.system, content := "A" },
                   { role := Role.system, content := "" },
                   { role := Role.user, content := "hi" }] })
    (List.mem_singleton.mpr rfl)
  have hsc : systemContents [{ role := Role.system, content := "A" },
                   { role := Role.system, content := "" },
                   { role := Role.user, content := "hi" }] = ["A", ""] := rfl
  rw [hsc, if_neg (by decide : ¬ ((["A", ""] : List String) = []))] at hm
  exact hm

/-- C1 counterexample: one well-formed system message with empty content — the
composed system text sent downstream is the persona prompt alone, not the
persona prompt followed by a blank-line separator and the joined contents. -/
theorem system_text_empty_override_cex :
    ((chat_with_claude (some "k") none (fun _ => ApiOutcome.success [])
        { messages := [{ role := Role.system, content := "" }] }).2.map ApiCall.system)
      = [AURA_SYSTEM_PROMPT]
    ∧ AURA_SYSTEM_PROMPT
        ≠ AURA_SYSTEM_PROMPT ++ "\n\n"
          ++ joinNL (systemContents [{ role := Role.system, content := "" }]) := by
  constructor
  · rfl
  · intro h
    have h2 := congrArg String.length h
    rw [String.length_append, String.length_append] at h2
    have e1 : ("\n\n" : String).length = 2 := rfl
    have e2 : (joinNL (systemContents [{ role := Role.system, content := "" }])).length = 0 := rfl
    rw [e1, e2] at h2
    omega

/-- C3: when the message list has zero user-role and zero assistant-role
entries (every message is system-role), the turn list of the issued call is
exactly the synthetic `{role := "user", content := "Hello"}`. -/
theorem no_turns_synthetic_hello (env : Option String) (api : ApiCall → ApiOutcome)
    (p : ChatRequest) (hkey : pyTruthy env = true)
    (hall : ∀ m ∈ p.messages, m.role = Role.system) :
    ∀ call ∈ (chat_with_claude env none api p).2,
      call.messages = [{ role := "user", content := "Hello" }] := by
  intro call hcall
  rw [chat_calls_eq env api p hkey, List.mem_singleton] at hcall
  subst hcall
  have ht : turnsOf p.messages = [] := by
    rw [turnsOf]
    have hf : p.messages.filter (fun m => !(m.role == Role.system)) = [] := by
      rw [List.filter_eq_nil_iff]
      intro m hm
      simp [hall m hm]
    rw [hf]
    rfl
  have hturns : (relayPartition p.messages).1 = [] := by
    rw [relayPartition, relayLoop_fst, ht]
    rfl
  have hshow : (relayCall p).messages
      = if (relayPartition p.messages).1.isEmpty
        then [{ role := "user", content := "Hello" }]
        else (relayPartition p.messages).1 := rfl
  rw [hshow, hturns]
  rfl

/-- C3 witness: the empty message list. -/
theorem no_turns_synthetic_hello_witness :
    (relayCall ({} : ChatRequest)).messages = [{ role := "user", content := "Hello" }] := by
  have h := no_turns_synthetic_hello (some "k") (fun _ => ApiOutcome.success []) {} rfl
    (by intro m hm; cases hm)
  exact h (relayCall {}) (List.mem_singleton.mpr rfl)

/-- C6: a body containing a message whose role is outside
`{user, assistant, system}` fails validation, so the route answers with the
422-class framework rejection and an empty call trace — no relay logic
runs — for every environment, SDK state and API oracle. -/
theorem invalid_role_rejected (raw : RawChatRequest) (env sdkError : Option String)
    (api : ApiCall → ApiOutcome) (l : List RawChatMessage) (m : RawChatMessage)
    (hl : raw.messages = .val l) (hm : m ∈ l) (hrole : parseRole m.role = none) :
    api_chat_route raw env sdkError api = (.validationError, [])
    ∧ statusOf (api_chat_route raw env sdkError api).1 = 422 := by
  have hv : validateMessages l = none :=
    validateMessages_none l m hm (by simp [validateMessage, hrole])
  have hvc : validateChatRequest raw = none := by
    simp [validateChatRequest, hl, hv]
  constructor
  · simp [api_chat_route, hvc]
  · simp [api_chat_route, hvc, statusOf]

/-- C6 witness: the role `"robot"`. -/
theorem invalid_role_rejected_witness :
    api_chat_route { messages := .val [{ role := "robot", content := "hi" }],
                     max_tokens := .missing, temperature := .missing }
        (some "k") none (fun _ => ApiOutcome.success [])
      = (.validationError, [])
    ∧ statusOf (api_chat_route { messages := .val [{ role := "robot", content := "hi" }],
                                 max_tokens := .missing, temperature := .missing }
          (some "k") none (fun _ => ApiOutcome.success [])).1 = 422 :=
  invalid_role_rejected _ (some "k") none _ [{ role := "robot", content := "hi" }]
    { role := "robot", content := "hi" } rfl (List.mem_singleton.mpr rfl) rfl

/-- C9 (amended): `max_tokens` must be an integer — a body whose `max_tokens`
is present but not an integer is rejected — and the accepted value is the
supplied integer unchanged, 512 when the field is omitted; no positivity
constraint is enforced (any integer, including zero and negatives, is
accepted). -/
theorem max_tokens_validation (r : RawChatRequest) :
    (r.max_tokens = RawField.invalid → validateChatRequest r = none)
    ∧ (∀ p, validateChatRequest r = some p →
        (r.max_tokens = RawField.missing → p.max_tokens = 512)
        ∧ (∀ n, r.max_tokens = RawField.val n → p.max_tokens = n)) := by
  constructor
  · intro h
    cases hmsg : r.messages with
    | missing => simp [validateChatRequest, hmsg, h]
    | invalid => simp [validateChatRequest, hmsg]
    | val l => cases hv : validateMessages l <;> simp [validateChatRequest, hmsg, hv, h]
  · intro p hp
    constructor
    · intro h
      cases hmsg : r.messages with
      | invalid => simp [validateChatRequest, hmsg] at hp
      | missing =>
        cases ht : r.temperature with
        | invalid => simp [validateChatRequest, hmsg, h, ht] at hp
        | missing => simp [validateChatRequest, hmsg, h, ht] at hp; rw [← hp]
        | val x => simp [validateChatRequest, hmsg, h, ht] at hp; rw [← hp]
      | val l =>
        cases hv : validateMessages l with
        | none => simp [validateChatRequest, hmsg, hv] at hp
        | some msgs =>
          cases ht : r.temperature with
          | invalid => simp [validateChatRequest, hmsg, hv, h, ht] at hp
          | missing => simp [validateChatRequest, hmsg, hv, h, ht] at hp; rw [← hp]
          | val x => simp [validateChatRequest, hmsg, hv, h, ht] at hp; rw [← hp]
    · intro n hn
      cases hmsg : r.messages with
      | invalid => simp [validateChatRequest, hmsg] at hp
      | missing =>
        cases ht : r.temperature with
        | invalid => simp [validateChatRequest, hmsg, hn, ht] at hp
        | missing => simp [validateChatRequest, hmsg, hn, ht] at hp; rw [← hp]
        | val x => simp [validateChatRequest, hmsg, hn, ht] at hp; rw [← hp]
      | val l =>
        cases hv : validateMessages l with
        | none => simp [validateChatRequest, hmsg, hv] at hp
        | some msgs =>
          cases ht : r.temperature with
          | invalid => simp [validateChatRequest, hmsg, hv, hn, ht] at hp
          | missing => simp [validateChatRequest, hmsg, hv, hn, ht] at hp; rw [← hp]
          | val x => simp [validateChatRequest, hmsg, hv, hn, ht] at hp; rw [← hp]

/-- C9 witness: a non-integer `max_tokens` is rejected; `max_tokens := 7` is
accepted as 7. -/
theorem max_tokens_validation_witness :
    validateChatRequest { messages := .missing, max_tokens := .invalid, temperature := .missing }
      = none
    ∧ (({ messages := [], max_tokens := 7, temperature := 0.7 } : ChatRequest)).max_tokens = 7 := by
  constructor
  · exact (max_tokens_validation
      { messages := .missing, max_tokens := .invalid, temperature := .missing }).1 rfl
  · exact ((max_tokens_validation
      { messages := .missing, max_tokens := .val 7, temperature := .missing }).2
      { messages := [], max_tokens := 7, temperature := 0.7 } rfl).2 7 rfl

/-- C9 counterexample: `max_tokens := -5` is not a positive integer, yet the
body passes validation, the relay runs, the route answers 200, and `-5` is
forwarded as the `max_tokens` of the issued call. -/
theorem max_tokens_negative_accepted_cex :
    (validateChatRequest { messages := .val [], max_tokens := .val (-5),
                           temperature := .missing }).map ChatRequest.max_tokens = some (-5)
    ∧ ¬ (0 < (-5 : Int))
    ∧ statusOf (api_chat_route { messages := .val [], max_tokens := .val (-5),
                                 temperature := .missing }
          (some "k") none (fun _ => ApiOutcome.success [{ type := some "text", text := "hi" }])).1
        = 200
    ∧ (api_chat_route { messages := .val [], max_tokens := .val (-5), temperature := .missing }
          (some "k") none (fun _ => ApiOutcome.success [{ type := some "text", text := "hi" }])).2.map
        ApiCall.max_tokens = [-5] := by
  refine ⟨rfl, by decide, rfl, rfl⟩

/-- C10: a body omitting `messages` is accepted and validates exactly like one
whose `messages` is `[]` — the route results coincide for every environment,
SDK state and oracle — and when the call goes through, the forwarded turn
list is the single synthetic Hello turn. -/
theorem omitted_messages_default (fmt : RawField Int) (ft : RawField Float)
    (env sdkError : Option String) (api : ApiCall → ApiOutcome) :
    api_chat_route { messages := .missing, max_tokens := fmt, temperature := ft } env sdkError api
      = api_chat_route { messages := .val [], max_tokens := fmt, temperature := ft } env sdkError api
    ∧ (pyTruthy env = true → sdkError = none →
        ∀ call ∈ (api_chat_route { messages := .missing, max_tokens := fmt, temperature := ft }
            env sdkError api).2,
          call.messages = [{ role := "user", content := "Hello" }]) := by
  have hv : validateChatRequest { messages := RawField.missing, max_tokens := fmt,
                                  temperature := ft }
      = validateChatRequest { messages := RawField.val [], max_tokens := fmt,
                              temperature := ft } := rfl
  constructor
  · unfold api_chat_route
    rw [hv]
  · intro hkey hsdk call hcall
    subst hsdk
    cases hfmt : fmt with
    | invalid =>
      rw [hfmt] at hcall
      simp [api_chat_route, validateChatRequest] at hcall
    | missing =>
      rw [hfmt] at hcall
      cases hft : ft with
      | invalid =>
        rw [hft] at hcall
        simp [api_chat_route, validateChatRequest] at hcall
      | missing =>
        rw [hft] at hcall
        have hred : api_chat_route
            { messages := RawField.missing,
              max_tokens := RawField.missing, temperature := RawField.missing } env none api
            = chat_with_claude env none api {} := rfl
        rw [hred, chat_calls_eq env api {} hkey, List.mem_singleton] at hcall
        subst hcall
        rfl
      | val x =>
        rw [hft] at hcall
        have hred : api_chat_route
            { messages := RawField.missing,
              max_tokens := RawField.missing, temperature := RawField.val x } env none api
            = chat_with_claude env none api
              { messages := [], max_tokens := 512, temperature := x } := rfl
        rw [hred, chat_calls_eq env api _ hkey, List.mem_singleton] at hcall
        subst hcall
        rfl
    | val n =>
      rw [hfmt] at hcall
      cases hft : ft with
      | invalid =>
        rw [hft] at hcall
        simp [api_chat_route, validateChatRequest] at hcall
      | missing =>
        rw [hft] at hcall
        have hred : api_chat_route
            { messages := RawField.missing,
              max_tokens := RawField.val n, temperature := RawField.missing } env none api
            = chat_with_claude env none api
              { messages := [], max_tokens := n, temperature := 0.7 } := rfl
        rw [hred, chat_calls_eq env api _ hkey, List.mem_singleton] at hcall
        subst hcall
        rfl
      | val x =>
        rw [hft] at hcall
        have hred : api_chat_route
            { messages := RawField.missing,
              max_tokens := RawField.val n, temperature := RawField.val x } env none api
            = chat_with_claude env none api
              { messages := [], max_tokens := n, temperature := x } := rfl
        rw [hred, chat_calls_eq env api _ hkey, List.mem_singleton] at hcall
        subst hcall
        rfl

/-- C10 witness: both bodies (messages omitted / messages `[]`) answered
identically, and the Hello turn forwarded. -/
theorem omitted_messages_default_witness :
    api_chat_route { messages := .missing, max_tokens := .missing, temperature := .missing }
        (some "k") none (fun _ => ApiOutcome.success [])
      = api_chat_route { messages := .val [], max_tokens := .missing, temperature := .missing }
        (some "k") none (fun _ => ApiOutcome.success [])
    ∧ (relayCall ({} : ChatRequest)).messages = [{ role := "user", content := "Hello" }] := by
  have h := omitted_messages_default RawField.missing RawField.missing (some "k") none
    (fun _ => ApiOutcome.success [])
  exact ⟨h.1, h.2 rfl rfl (relayCall {}) (List.mem_singleton.mpr rfl)⟩
